import Mathlib

set_option linter.unusedVariables false

namespace Gofr

/-! Shallow embedding of pkg/gofr/service/circuit_breaker.go.

Times and durations are modelled as integers (nanoseconds are irrelevant to
the control flow; only comparisons of the form `time.Since(lastChecked) >
interval` matter, which become `now - lastChecked > interval`).  Go `int`
fields are modelled as `Int` (no overflow is reachable in the quantities
involved).  The wrapped transport (the embedded `HTTP` field) is modelled as
a function from the concrete call the dispatch switch makes to an outcome
`(resp, err)`; the health probe outcome (`HealthCheck(ctx).Status ==
serviceUp`) is modelled as a boolean supplied per call. -/

/-- Breaker state constants ClosedState / OpenState of circuit_breaker.go. -/
inductive BState where
  | Closed
  | Open
deriving DecidableEq, Repr

/-- Errors observable at the circuit-breaker layer: ErrCircuitOpen,
ErrUnexpectedCircuitBreakerResultType, or an underlying transport error
(identified by an abstract numeric code). -/
inductive CBError where
  | circuitOpen
  | unexpectedResultType
  | transport (e : Nat)
deriving DecidableEq, Repr

/-- The mutable fields of the CircuitBreaker struct. -/
structure CB where
  state : BState
  failureCount : Int
  threshold : Int
  interval : Int
  lastChecked : Int
deriving DecidableEq, Repr

/-- NewCircuitBreaker: state ClosedState, failureCount 0 (zero value),
lastChecked the zero time (modelled as 0), threshold and interval from the
config. -/
def NewCircuitBreaker (threshold interval : Int) : CB :=
  { state := .Closed, failureCount := 0, threshold := threshold,
    interval := interval, lastChecked := 0 }

/-- Go map[string]interface{} of query parameters; nil is `none`. -/
abbrev QueryParams := Option (List (String × String))

/-- Go []byte body; nil is `none`. -/
abbrev Body := Option (List Nat)

/-- Go map[string]string of headers; nil is `none`. -/
abbrev Headers := Option (List (String × String))

/-- One invocation of the wrapped HTTP capability, mirroring which arguments
each case of the dispatch switch forwards (the DELETE case forwards no query
parameters, the GET case forwards no body). -/
inductive TransportCall where
  | get (path : String) (queryParams : QueryParams) (headers : Headers)
  | post (path : String) (queryParams : QueryParams) (body : Body) (headers : Headers)
  | patch (path : String) (queryParams : QueryParams) (body : Body) (headers : Headers)
  | put (path : String) (queryParams : QueryParams) (body : Body) (headers : Headers)
  | delete (path : String) (body : Body) (headers : Headers)
deriving DecidableEq, Repr

/-- Result of one wrapped transport call: the *http.Response pointer (nil is
`none`, an abstract response id otherwise) and the Go error (nil is `none`). -/
structure TransportOutcome where
  resp : Option Nat
  err : Option Nat
deriving DecidableEq, Repr

/-- openCircuit: state = OpenState, lastChecked = time.Now(). -/
def openCircuit (cb : CB) (now : Int) : CB :=
  { cb with state := .Open, lastChecked := now }

/-- resetCircuit: state = ClosedState, failureCount = 0. -/
def resetCircuit (cb : CB) : CB :=
  { cb with state := .Closed, failureCount := 0 }

/-- handleFailure: failureCount++; if failureCount > threshold, openCircuit. -/
def handleFailure (cb : CB) (now : Int) : CB :=
  let cb2 := { cb with failureCount := cb.failureCount + 1 }
  if cb2.failureCount > cb2.threshold then openCircuit cb2 now else cb2

/-- resetFailureCount: failureCount = 0. -/
def resetFailureCount (cb : CB) : CB :=
  { cb with failureCount := 0 }

/-- Output of executeWithCircuitBreaker: the updated breaker, the returned
(*http.Response, error) pair, and whether the wrapped function f and the
health probe were invoked. -/
structure ExecOut where
  cb : CB
  resp : Option Nat
  err : Option CBError
  transportCalled : Bool
  probeCalled : Bool
deriving DecidableEq, Repr

/-- executeWithCircuitBreaker, with the outcome of f supplied as `tr` and
the health-probe outcome as `health`.  Mirrors the source exactly: the open
branch probes only when `time.Since(lastChecked) > interval`, returns
(nil, nil) after a successful probe and (nil, ErrCircuitOpen) otherwise; the
closed branch calls f, applies handleFailure / resetFailureCount, and
returns (nil, ErrCircuitOpen) when failureCount > threshold, else (result,
err). -/
def executeWithCircuitBreaker (cb : CB) (now : Int) (health : Bool)
    (tr : TransportOutcome) : ExecOut :=
  if cb.state = .Open then
    if now - cb.lastChecked > cb.interval then
      if health then
        { cb := resetCircuit cb, resp := none, err := none,
          transportCalled := false, probeCalled := true }
      else
        { cb := cb, resp := none, err := some .circuitOpen,
          transportCalled := false, probeCalled := true }
    else
      { cb := cb, resp := none, err := some .circuitOpen,
        transportCalled := false, probeCalled := false }
  else
    let cb1 := if tr.err.isSome then handleFailure cb now else resetFailureCount cb
    if cb1.failureCount > cb1.threshold then
      { cb := openCircuit cb1 now, resp := none, err := some .circuitOpen,
        transportCalled := true, probeCalled := false }
    else
      { cb := cb1, resp := tr.resp, err := tr.err.map .transport,
        transportCalled := true, probeCalled := false }

/-- handleCircuitBreakerResult.  The interface{} value `result` is modelled
as `Option (Option Nat)`: `none` is the untyped nil interface (no switch
case ran), `some r` is a typed *http.Response pointer `r` (which may itself
be the nil pointer `none` and still passes the type assertion). -/
def handleCircuitBreakerResult (result : Option (Option Nat)) (err : Option CBError) :
    Option Nat × Option CBError :=
  match err with
  | some e => (none, some e)
  | none =>
    match result with
    | some r => (r, none)
    | none => (none, some .unexpectedResultType)

/-- tryCircuitRecovery.  Returns the updated breaker, whether recovery
succeeded, and how many health probes were performed (the probe runs only
when the cool-down has elapsed, because Go's && short-circuits). -/
def tryCircuitRecovery (cb : CB) (now : Int) (health : Bool) : CB × Bool × Nat :=
  if now - cb.lastChecked > cb.interval then
    if health then (resetCircuit cb, true, 1) else (cb, false, 1)
  else (cb, false, 0)

/-- The dispatch switch of doRequest: which TransportCall each supported
method constant produces; an unsupported method leaves result untyped nil. -/
def switchCall (method path : String) (queryParams : QueryParams) (body : Body)
    (headers : Headers) : Option TransportCall :=
  if method = "GET" then some (.get path queryParams headers)
  else if method = "POST" then some (.post path queryParams body headers)
  else if method = "PATCH" then some (.patch path queryParams body headers)
  else if method = "PUT" then some (.put path queryParams body headers)
  else if method = "DELETE" then some (.delete path body headers)
  else none

/-- The five method constants the dispatch switch supports. -/
def supportedMethods : List String := ["GET", "POST", "PATCH", "PUT", "DELETE"]

/-- Proposition that a method string is one of the five supported verbs. -/
def isVerb (m : String) : Prop := m ∈ supportedMethods

instance (m : String) : Decidable (isVerb m) := by
  unfold isVerb; infer_instance

/-- Observable outcome of one doRequest call: final breaker state, the
(*http.Response, error) pair returned to the caller, how many wrapped
transport calls and health probes were made, and which call (if any) was
forwarded to the wrapped transport. -/
structure ReqOut where
  cb : CB
  resp : Option Nat
  err : Option CBError
  transportCalls : Nat
  probeCalls : Nat
  transportCall : Option TransportCall
deriving DecidableEq, Repr

/-- Lines 179-211 of doRequest: the dispatch switch followed by
handleCircuitBreakerResult, starting from the breaker state left by the
open-state check (`probes1` probes already performed there). -/
def dispatchAndUnwrap (cb1 : CB) (probes1 : Nat) (now : Int) (health : Bool)
    (transport : TransportCall → TransportOutcome)
    (method path : String) (queryParams : QueryParams) (body : Body)
    (headers : Headers) : ReqOut :=
  match switchCall method path queryParams body headers with
  | none =>
    match handleCircuitBreakerResult none none with
    | (resp, err) =>
      { cb := cb1, resp := resp, err := err, transportCalls := 0,
        probeCalls := probes1, transportCall := none }
  | some c =>
    let eo := executeWithCircuitBreaker cb1 now health (transport c)
    match handleCircuitBreakerResult (some eo.resp) eo.err with
    | (resp, err) =>
      { cb := eo.cb, resp := resp, err := err,
        transportCalls := if eo.transportCalled then 1 else 0,
        probeCalls := probes1 + (if eo.probeCalled then 1 else 0),
        transportCall := if eo.transportCalled then some c else none }

/-- doRequest, sequential semantics (the whole call runs without
interleaving; `now` is the time read during the call, `health` the outcome a
health probe would report, `transport` the behaviour of the wrapped HTTP
capability). -/
def doRequest (cb : CB) (now : Int) (health : Bool)
    (transport : TransportCall → TransportOutcome)
    (method path : String) (queryParams : QueryParams) (body : Body)
    (headers : Headers) : ReqOut :=
  if cb.state = .Open then
    let r := tryCircuitRecovery cb now health
    if r.2.1 then
      dispatchAndUnwrap r.1 r.2.2 now health transport method path queryParams body headers
    else
      { cb := r.1, resp := none, err := some .circuitOpen,
        transportCalls := 0, probeCalls := r.2.2, transportCall := none }
  else
    dispatchAndUnwrap cb 0 now health transport method path queryParams body headers

/-- Get: doRequest with method GET, nil body, nil headers. -/
def Get (cb : CB) (now : Int) (health : Bool)
    (transport : TransportCall → TransportOutcome)
    (path : String) (queryParams : QueryParams) : ReqOut :=
  doRequest cb now health transport "GET" path queryParams none none

/-- GetWithHeaders: doRequest with method GET and nil body. -/
def GetWithHeaders (cb : CB) (now : Int) (health : Bool)
    (transport : TransportCall → TransportOutcome)
    (path : String) (queryParams : QueryParams) (headers : Headers) : ReqOut :=
  doRequest cb now health transport "GET" path queryParams none headers

/-- Post: doRequest with method POST and nil headers. -/
def Post (cb : CB) (now : Int) (health : Bool)
    (transport : TransportCall → TransportOutcome)
    (path : String) (queryParams : QueryParams) (body : Body) : ReqOut :=
  doRequest cb now health transport "POST" path queryParams body none

/-- PostWithHeaders: doRequest with method POST. -/
def PostWithHeaders (cb : CB) (now : Int) (health : Bool)
    (transport : TransportCall → TransportOutcome)
    (path : String) (queryParams : QueryParams) (body : Body) (headers : Headers) : ReqOut :=
  doRequest cb now health transport "POST" path queryParams body headers

/-- Patch: doRequest with method PATCH and nil headers. -/
def Patch (cb : CB) (now : Int) (health : Bool)
    (transport : TransportCall → TransportOutcome)
    (path : String) (queryParams : QueryParams) (body : Body) : ReqOut :=
  doRequest cb now health transport "PATCH" path queryParams body none

/-- PatchWithHeaders: doRequest with method PATCH. -/
def PatchWithHeaders (cb : CB) (now : Int) (health : Bool)
    (transport : TransportCall → TransportOutcome)
    (path : String) (queryParams : QueryParams) (body : Body) (headers : Headers) : ReqOut :=
  doRequest cb now health transport "PATCH" path queryParams body headers

/-- Put: doRequest with method PUT and nil headers. -/
def Put (cb : CB) (now : Int) (health : Bool)
    (transport : TransportCall → TransportOutcome)
    (path : String) (queryParams : QueryParams) (body : Body) : ReqOut :=
  doRequest cb now health transport "PUT" path queryParams body none

/-- PutWithHeaders: doRequest with method PUT. -/
def PutWithHeaders (cb : CB) (now : Int) (health : Bool)
    (transport : TransportCall → TransportOutcome)
    (path : String) (queryParams : QueryParams) (body : Body) (headers : Headers) : ReqOut :=
  doRequest cb now health transport "PUT" path queryParams body headers

/-- Delete: doRequest with method DELETE, nil query parameters, nil headers. -/
def Delete (cb : CB) (now : Int) (health : Bool)
    (transport : TransportCall → TransportOutcome)
    (path : String) (body : Body) : ReqOut :=
  doRequest cb now health transport "DELETE" path none body none

/-- DeleteWithHeaders: doRequest with method DELETE and nil query parameters. -/
def DeleteWithHeaders (cb : CB) (now : Int) (health : Bool)
    (transport : TransportCall → TransportOutcome)
    (path : String) (body : Body) (headers : Headers) : ReqOut :=
  doRequest cb now health transport "DELETE" path none body headers

/-- One tick of startHealthChecks: if the breaker is open and the probe
reports healthy, resetCircuit; nothing else is touched (in particular
lastChecked is never written here). -/
def startHealthChecksTick (cb : CB) (health : Bool) : CB :=
  if cb.state = .Open then (if health then resetCircuit cb else cb) else cb

/-- Inputs of one foreground call in a sequence of requests. -/
structure CallIn where
  now : Int
  health : Bool
  transport : TransportCall → TransportOutcome
  method : String
  path : String
  queryParams : QueryParams
  body : Body
  headers : Headers

/-- doRequest on a packaged call input. -/
def doRequestIn (cb : CB) (i : CallIn) : ReqOut :=
  doRequest cb i.now i.health i.transport i.method i.path i.queryParams i.body i.headers

/-- Breaker state after the first n calls of the sequence `ins`. -/
def runSeq (cb0 : CB) (ins : Nat → CallIn) : Nat → CB
  | 0 => cb0
  | n + 1 => (doRequestIn (runSeq cb0 ins n) (ins n)).cb

/-- Observable outcome of call n (0-indexed) of the sequence `ins`. -/
def outAt (cb0 : CB) (ins : Nat → CallIn) (n : Nat) : ReqOut :=
  doRequestIn (runSeq cb0 ins n) (ins n)

/-! Shallow embedding of the remote log-level poller (the `logging` package
file holding NewRemoteLogger / UpdateLogLevel / fetchAndUpdateLogLevel). -/

/-- Verbosity levels of the logging package.  The Level enumeration itself is
not under src/; its exact carriers do not matter to the claims, only that it
is a decidable-equality enumeration. -/
inductive Level where
  | DEBUG
  | INFO
  | WARN
  | ERROR
  | FATAL
deriving DecidableEq, Repr

/-- Modelled from the spec: GetLevelFromString is not under src/; the spec
requires only that it maps a level name to the verbosity enum and that
unrecognized strings map to a defined fallback (taken here to be INFO). -/
def GetLevelFromString (s : String) : Level :=
  if s = "DEBUG" then .DEBUG
  else if s = "INFO" then .INFO
  else if s = "WARN" then .WARN
  else if s = "ERROR" then .ERROR
  else if s = "FATAL" then .FATAL
  else .INFO

/-- Go map lookup response.Data[0].Level["LOG_LEVEL"]: a missing key yields
the zero value "". -/
def mapLookup (m : List (String × String)) (k : String) : String :=
  match m.find? (fun p => p.fst = k) with
  | some p => p.snd
  | none => ""

/-- What one poll observes from the remote endpoint: the GET fails, reading
the body fails, JSON unmarshalling fails, or a parsed response whose data
array holds (serviceName, logLevel-map) entries. -/
inductive FetchOutcome where
  | getErr (e : Nat)
  | readErr (e : Nat)
  | parseErr (e : Nat)
  | parsed (data : List (String × List (String × String)))
deriving DecidableEq, Repr

/-- fetchAndUpdateLogLevel: every failure path returns (currentLevel, err);
an empty data array returns (currentLevel, nil); otherwise the level parsed
from data[0].Level["LOG_LEVEL"] with a nil error. -/
def fetchAndUpdateLogLevel (outcome : FetchOutcome) (currentLevel : Level) :
    Level × Option Nat :=
  match outcome with
  | .getErr e => (currentLevel, some e)
  | .readErr e => (currentLevel, some e)
  | .parseErr e => (currentLevel, some e)
  | .parsed [] => (currentLevel, none)
  | .parsed (d :: _) => (GetLevelFromString (mapLookup d.snd "LOG_LEVEL"), none)

/-- Observable outcome of one tick of the UpdateLogLevel loop: the stored
currentLevel afterwards, whether the informational transition line was
emitted, and the argument changeLevel was called with (none when the tick
errored and changeLevel was not called). -/
structure TickOut where
  currentLevel : Level
  logEmitted : Bool
  changeLevelArg : Option Level
deriving DecidableEq, Repr

/-- One iteration of the for-range body of UpdateLogLevel: fetch; on a nil
error call changeLevel(newLevel), and when the stored level differs from
newLevel emit the transition log line and store newLevel. -/
def pollTick (currentLevel : Level) (outcome : FetchOutcome) : TickOut :=
  match fetchAndUpdateLogLevel outcome currentLevel with
  | (newLevel, some _) =>
    { currentLevel := currentLevel, logEmitted := false, changeLevelArg := none }
  | (newLevel, none) =>
    if currentLevel ≠ newLevel then
      { currentLevel := newLevel, logEmitted := true, changeLevelArg := some newLevel }
    else
      { currentLevel := currentLevel, logEmitted := false, changeLevelArg := some newLevel }

/-- Go strconv.Atoi on a 64-bit platform: optional single sign, at least one
digit, digits only, and the value must fit a signed 64-bit integer (out of
range reports an error, which NewRemoteLogger treats like any parse
failure). -/
def goAtoi (s : String) : Option Int :=
  let cs := s.toList
  let signed : Bool × List Char :=
    match cs with
    | '-' :: rest => (true, rest)
    | '+' :: rest => (false, rest)
    | _ => (false, cs)
  match signed with
  | (neg, ds) =>
    if ds = [] then none
    else if ds.all Char.isDigit then
      let n : Nat := ds.foldl (fun acc c => acc * 10 + (c.toNat - 48)) 0
      let v : Int := if neg then -(n : Int) else (n : Int)
      if -(2 ^ 63) ≤ v ∧ v < 2 ^ 63 then some v else none
    else none

/-- The remoteLogger value NewRemoteLogger builds, plus whether the
background poll goroutine was started. -/
structure RemoteLoggerInit where
  remoteURL : String
  levelFetchInterval : Int
  currentLevel : Level
  pollStarted : Bool
deriving DecidableEq, Repr

/-- NewRemoteLogger: parse the fetch-interval string with Atoi, defaulting
to 15 on error; start the poll loop only for a non-empty remote URL. -/
def NewRemoteLogger (level : Level) (remoteConfigURL loggerFetchInterval : String) :
    RemoteLoggerInit :=
  let interval : Int :=
    match goAtoi loggerFetchInterval with
    | none => 15
    | some n => n
  { remoteURL := remoteConfigURL, levelFetchInterval := interval,
    currentLevel := level,
    pollStarted := if remoteConfigURL = "" then false else true }

/-! Helper lemmas shared by the claims. -/

/-- The invariant of the breaker state: a failure count beyond the threshold
forces the open state. -/
def BreakerInv (cb : CB) : Prop := cb.failureCount > cb.threshold → cb.state = .Open

/-- A supported method always produces a transport call in the switch. -/
lemma switchCall_isSome (m p : String) (q : QueryParams) (b : Body) (hd : Headers)
    (h : isVerb m) : (switchCall m p q b hd).isSome := by
  simp only [isVerb, supportedMethods, List.mem_cons, List.mem_singleton,
    List.not_mem_nil, or_false] at h
  rcases h with rfl | rfl | rfl | rfl | rfl <;> simp [switchCall]

/-- executeWithCircuitBreaker never produces the unexpected-result error. -/
lemma exec_err_ne_unexpected (cb : CB) (now : Int) (health : Bool)
    (tr : TransportOutcome) :
    (executeWithCircuitBreaker cb now health tr).err ≠ some .unexpectedResultType := by
  unfold executeWithCircuitBreaker
  split
  · split
    · split <;> simp
    · simp
  · rcases h : tr.err with _ | e <;>
      simp only [h, Option.isSome_none, Option.isSome_some, Bool.false_eq_true,
        if_false, if_true, Option.map_none', Option.map_some'] <;>
      split <;> simp

/-- dispatchAndUnwrap never produces the unexpected-result error when the
method is one of the five supported verbs. -/
lemma dispatch_err_ne_unexpected (cb1 : CB) (probes1 : Nat) (now : Int)
    (health : Bool) (transport : TransportCall → TransportOutcome)
    (m p : String) (q : QueryParams) (b : Body) (hd : Headers)
    (hverb : isVerb m) :
    (dispatchAndUnwrap cb1 probes1 now health transport m p q b hd).err ≠
      some .unexpectedResultType := by
  rcases Option.isSome_iff_exists.mp (switchCall_isSome m p q b hd hverb) with ⟨c, hc⟩
  have hne := exec_err_ne_unexpected cb1 now health (transport c)
  rcases h : (executeWithCircuitBreaker cb1 now health (transport c)).err with _ | e
  · simp [dispatchAndUnwrap, hc, handleCircuitBreakerResult, h]
  · rw [h] at hne
    simp [dispatchAndUnwrap, hc, handleCircuitBreakerResult, h]
    intro hh
    exact hne (by rw [hh])

/-- While open with the cool-down not elapsed or the probe down, doRequest
short-circuits: the breaker is unchanged, the caller gets ErrCircuitOpen,
no transport call is made, and a probe runs only when the cool-down had
elapsed. -/
lemma doRequest_stuck (cb : CB) (now : Int) (health : Bool)
    (transport : TransportCall → TransportOutcome)
    (m p : String) (q : QueryParams) (b : Body) (hd : Headers)
    (hst : cb.state = .Open)
    (hcond : ¬(now - cb.lastChecked > cb.interval ∧ health = true)) :
    doRequest cb now health transport m p q b hd =
      { cb := cb, resp := none, err := some .circuitOpen, transportCalls := 0,
        probeCalls := if now - cb.lastChecked > cb.interval then 1 else 0,
        transportCall := none } := by
  unfold doRequest
  by_cases he : now - cb.lastChecked > cb.interval
  · have hh : health = false := by
      cases health
      · rfl
      · exact absurd ⟨he, rfl⟩ hcond
    subst hh
    simp [hst, he, tryCircuitRecovery]
  · simp [hst, he, tryCircuitRecovery]

/-- resetCircuit restores the invariant outright for non-negative thresholds. -/
lemma resetCircuit_inv (cb : CB) (ht : 0 ≤ cb.threshold) :
    BreakerInv (resetCircuit cb) := by
  intro h
  simp [resetCircuit] at h
  omega

/-- handleFailure establishes the breaker invariant unconditionally: it
opens the circuit exactly when the incremented count passes the threshold. -/
lemma handleFailure_inv (cb : CB) (now : Int) : BreakerInv (handleFailure cb now) := by
  unfold handleFailure
  dsimp only
  split
  · intro _
    rfl
  · rename_i hng
    intro h
    exact absurd h hng

/-- resetFailureCount restores the invariant for non-negative thresholds. -/
lemma resetFailureCount_inv (cb : CB) (ht : 0 ≤ cb.threshold) :
    BreakerInv (resetFailureCount cb) := by
  intro h
  simp [resetFailureCount] at h
  omega

/-- executeWithCircuitBreaker preserves the breaker invariant for
non-negative thresholds. -/
lemma exec_inv (cb : CB) (now : Int) (health : Bool) (tr : TransportOutcome)
    (hinv : BreakerInv cb) (ht : 0 ≤ cb.threshold) :
    BreakerInv (executeWithCircuitBreaker cb now health tr).cb := by
  unfold executeWithCircuitBreaker
  split
  · split
    · split
      · exact resetCircuit_inv cb ht
      · exact hinv
    · exact hinv
  · dsimp only
    split
    · split
      · intro _
        rfl
      · exact handleFailure_inv cb now
    · split
      · intro _
        rfl
      · exact resetFailureCount_inv cb ht

/-- dispatchAndUnwrap preserves the breaker invariant for non-negative
thresholds. -/
lemma dispatch_inv (cb1 : CB) (probes1 : Nat) (now : Int) (health : Bool)
    (transport : TransportCall → TransportOutcome)
    (m p : String) (q : QueryParams) (b : Body) (hd : Headers)
    (hinv : BreakerInv cb1) (ht : 0 ≤ cb1.threshold) :
    BreakerInv (dispatchAndUnwrap cb1 probes1 now health transport m p q b hd).cb := by
  rcases h : switchCall m p q b hd with _ | c
  · simpa [dispatchAndUnwrap, h, handleCircuitBreakerResult] using hinv
  · have hx := exec_inv cb1 now health (transport c) hinv ht
    rcases he : (executeWithCircuitBreaker cb1 now health (transport c)).err with _ | e <;>
      simpa [dispatchAndUnwrap, h, handleCircuitBreakerResult, he] using hx

/-- doRequest preserves the breaker invariant for non-negative thresholds. -/
lemma doRequest_inv (cb : CB) (now : Int) (health : Bool)
    (transport : TransportCall → TransportOutcome)
    (m p : String) (q : QueryParams) (b : Body) (hd : Headers)
    (hinv : BreakerInv cb) (ht : 0 ≤ cb.threshold) :
    BreakerInv (doRequest cb now health transport m p q b hd).cb := by
  unfold doRequest
  by_cases hst : cb.state = .Open
  · by_cases he : now - cb.lastChecked > cb.interval
    · cases health
      · simp only [hst, if_true, tryCircuitRecovery, he, if_pos, Bool.false_eq_true, if_false]
        simpa using hinv
      · simp only [hst, if_true, tryCircuitRecovery, he, if_pos]
        simpa using dispatch_inv (resetCircuit cb) 1 now true transport m p q b hd
          (resetCircuit_inv cb ht) ht
    · simp only [hst, if_true, tryCircuitRecovery, he, if_neg, if_false]
      simpa using hinv
  · simp only [hst, if_false, Bool.false_eq_true]
    simpa using dispatch_inv cb 0 now health transport m p q b hd hinv ht

/-- doRequest never surfaces the unexpected-result error for a supported
method. -/
lemma doRequest_err_ne (cb : CB) (now : Int) (health : Bool)
    (transport : TransportCall → TransportOutcome)
    (m p : String) (q : QueryParams) (b : Body) (hd : Headers)
    (hverb : isVerb m) :
    (doRequest cb now health transport m p q b hd).err ≠ some .unexpectedResultType := by
  unfold doRequest
  by_cases hst : cb.state = .Open
  · by_cases he : now - cb.lastChecked > cb.interval
    · cases health
      · simp [hst, he, tryCircuitRecovery]
      · simp only [hst, if_true, tryCircuitRecovery, he, if_pos]
        simpa using dispatch_err_ne_unexpected (resetCircuit cb) 1 now true transport
          m p q b hd hverb
    · simp [hst, he, tryCircuitRecovery]
  · simp only [hst, if_false, Bool.false_eq_true]
    simpa using dispatch_err_ne_unexpected cb 0 now health transport m p q b hd hverb

instance (cb : CB) : Decidable (BreakerInv cb) := by
  unfold BreakerInv; infer_instance

/-- With the breaker closed, doRequest is the dispatch switch directly. -/
lemma doRequest_closed_eq (cb : CB) (now : Int) (health : Bool)
    (transport : TransportCall → TransportOutcome)
    (m p : String) (q : QueryParams) (b : Body) (hd : Headers)
    (hst : cb.state = .Closed) :
    doRequest cb now health transport m p q b hd =
      dispatchAndUnwrap cb 0 now health transport m p q b hd := by
  unfold doRequest
  simp [hst]

/-- With the breaker open, the cool-down elapsed and the probe up, doRequest
resets the circuit and proceeds to the dispatch switch in the same call. -/
lemma doRequest_open_recovered_eq (cb : CB) (now : Int)
    (transport : TransportCall → TransportOutcome)
    (m p : String) (q : QueryParams) (b : Body) (hd : Headers)
    (hst : cb.state = .Open) (hel : now - cb.lastChecked > cb.interval) :
    doRequest cb now true transport m p q b hd =
      dispatchAndUnwrap (resetCircuit cb) 1 now true transport m p q b hd := by
  unfold doRequest
  simp [hst, tryCircuitRecovery, hel]

/-- executeWithCircuitBreaker from a closed state on a successful transport
call: the count resets and the response flows through. -/
lemma exec_closed_success (cb : CB) (now : Int) (health : Bool)
    (tr : TransportOutcome) (hst : cb.state = .Closed) (htr : tr.err = none)
    (ht : 0 ≤ cb.threshold) :
    executeWithCircuitBreaker cb now health tr =
      ⟨resetFailureCount cb, tr.resp, none, true, false⟩ := by
  unfold executeWithCircuitBreaker
  rw [if_neg (by rw [hst]; simp)]
  dsimp only
  rw [htr]
  simp [resetFailureCount, not_lt.mpr ht]

/-- executeWithCircuitBreaker from a closed state on a failing transport
call that stays within the threshold: the count increments and the transport
error flows through. -/
lemma exec_closed_fail_low (cb : CB) (now : Int) (health : Bool)
    (tr : TransportOutcome) (e : Nat) (hst : cb.state = .Closed)
    (htr : tr.err = some e) (hle : cb.failureCount + 1 ≤ cb.threshold) :
    executeWithCircuitBreaker cb now health tr =
      ⟨{ cb with failureCount := cb.failureCount + 1 }, tr.resp,
        some (.transport e), true, false⟩ := by
  unfold executeWithCircuitBreaker handleFailure
  rw [if_neg (by rw [hst]; simp)]
  dsimp only
  rw [htr]
  simp [not_lt.mpr hle]

/-- executeWithCircuitBreaker from a closed state on a failing transport
call that crosses the threshold: the circuit opens and ErrCircuitOpen takes
precedence over the transport error. -/
lemma exec_closed_fail_cross (cb : CB) (now : Int) (health : Bool)
    (tr : TransportOutcome) (e : Nat) (hst : cb.state = .Closed)
    (htr : tr.err = some e) (hgt : cb.failureCount + 1 > cb.threshold) :
    executeWithCircuitBreaker cb now health tr =
      ⟨⟨.Open, cb.failureCount + 1, cb.threshold, cb.interval, now⟩, none,
        some .circuitOpen, true, false⟩ := by
  unfold executeWithCircuitBreaker handleFailure
  rw [if_neg (by rw [hst]; simp)]
  dsimp only
  rw [htr]
  simp [openCircuit, hgt]

/-- Dispatch from a closed state when the matched transport call succeeds. -/
lemma dispatch_closed_success (cb1 : CB) (probes1 : Nat) (now : Int) (health : Bool)
    (transport : TransportCall → TransportOutcome)
    (m p : String) (q : QueryParams) (b : Body) (hd : Headers) (c : TransportCall)
    (hc : switchCall m p q b hd = some c)
    (hst : cb1.state = .Closed)
    (htr : (transport c).err = none) (ht : 0 ≤ cb1.threshold) :
    dispatchAndUnwrap cb1 probes1 now health transport m p q b hd =
      ⟨resetFailureCount cb1, (transport c).resp, none, 1, probes1, some c⟩ := by
  unfold dispatchAndUnwrap
  rw [hc]
  dsimp only
  rw [exec_closed_success cb1 now health (transport c) hst htr ht]
  simp [handleCircuitBreakerResult]

/-- Dispatch from a closed state when the matched transport call fails but
the incremented count stays within the threshold. -/
lemma dispatch_closed_fail_low (cb1 : CB) (probes1 : Nat) (now : Int) (health : Bool)
    (transport : TransportCall → TransportOutcome)
    (m p : String) (q : QueryParams) (b : Body) (hd : Headers) (c : TransportCall) (e : Nat)
    (hc : switchCall m p q b hd = some c)
    (hst : cb1.state = .Closed)
    (htr : (transport c).err = some e)
    (hle : cb1.failureCount + 1 ≤ cb1.threshold) :
    dispatchAndUnwrap cb1 probes1 now health transport m p q b hd =
      ⟨{ cb1 with failureCount := cb1.failureCount + 1 }, none,
        some (.transport e), 1, probes1, some c⟩ := by
  unfold dispatchAndUnwrap
  rw [hc]
  dsimp only
  rw [exec_closed_fail_low cb1 now health (transport c) e hst htr hle]
  simp [handleCircuitBreakerResult]

/-- Dispatch from a closed state when the matched transport call fails and
the incremented count crosses the threshold. -/
lemma dispatch_closed_fail_cross (cb1 : CB) (probes1 : Nat) (now : Int) (health : Bool)
    (transport : TransportCall → TransportOutcome)
    (m p : String) (q : QueryParams) (b : Body) (hd : Headers) (c : TransportCall) (e : Nat)
    (hc : switchCall m p q b hd = some c)
    (hst : cb1.state = .Closed)
    (htr : (transport c).err = some e)
    (hgt : cb1.failureCount + 1 > cb1.threshold) :
    dispatchAndUnwrap cb1 probes1 now health transport m p q b hd =
      ⟨⟨.Open, cb1.failureCount + 1, cb1.threshold, cb1.interval, now⟩, none,
        some .circuitOpen, 1, probes1, some c⟩ := by
  unfold dispatchAndUnwrap
  rw [hc]
  dsimp only
  rw [exec_closed_fail_cross cb1 now health (transport c) e hst htr hgt]
  simp [handleCircuitBreakerResult]

/-- In a closed state, executeWithCircuitBreaker always invokes the wrapped
function exactly once and never probes. -/
lemma exec_closed_called (cb : CB) (now : Int) (health : Bool)
    (tr : TransportOutcome) (hst : cb.state = .Closed) :
    (executeWithCircuitBreaker cb now health tr).transportCalled = true
    ∧ (executeWithCircuitBreaker cb now health tr).probeCalled = false := by
  unfold executeWithCircuitBreaker
  rw [if_neg (by rw [hst]; simp)]
  dsimp only
  split <;> split <;> simp

/-- From a closed state, the dispatch records exactly one forwarded
transport call, namely the one built by the switch, and no extra probe. -/
lemma dispatch_fields (cb1 : CB) (probes1 : Nat) (now : Int) (health : Bool)
    (transport : TransportCall → TransportOutcome)
    (m p : String) (q : QueryParams) (b : Body) (hd : Headers) (c : TransportCall)
    (hc : switchCall m p q b hd = some c) (hst : cb1.state = .Closed) :
    (dispatchAndUnwrap cb1 probes1 now health transport m p q b hd).transportCall = some c
    ∧ (dispatchAndUnwrap cb1 probes1 now health transport m p q b hd).transportCalls = 1
    ∧ (dispatchAndUnwrap cb1 probes1 now health transport m p q b hd).probeCalls = probes1 := by
  have hcall := exec_closed_called cb1 now health (transport c) hst
  unfold dispatchAndUnwrap
  rw [hc]
  dsimp only
  rcases h : (executeWithCircuitBreaker cb1 now health (transport c)).err with _ | e <;>
    simp [handleCircuitBreakerResult, h, hcall.1, hcall.2]

/-- Transport that fails every call with error code 7, used in concrete
instantiations. -/
def trFailW : TransportCall → TransportOutcome := fun _ => ⟨none, some 7⟩

/-- Transport that answers every call with response 42 and a nil error, used
in concrete instantiations. -/
def trOkW : TransportCall → TransportOutcome := fun _ => ⟨some 42, none⟩

/-! Claim theorems. -/

/-- C2: for a non-negative threshold, the invariant failureCount > threshold
⇒ state = Open (equivalently state = Closed ⇒ failureCount ≤ threshold)
holds in the initial state made by NewCircuitBreaker and is preserved by
openCircuit, resetCircuit, handleFailure, resetFailureCount, and every
complete request dispatch. -/
theorem breaker_invariant_preserved :
    (∀ cb : CB, BreakerInv cb ↔ (cb.state = .Closed → cb.failureCount ≤ cb.threshold))
    ∧ (∀ threshold interval : Int, 0 ≤ threshold →
        BreakerInv (NewCircuitBreaker threshold interval))
    ∧ (∀ (cb : CB) (now : Int), BreakerInv (openCircuit cb now))
    ∧ (∀ cb : CB, 0 ≤ cb.threshold → BreakerInv (resetCircuit cb))
    ∧ (∀ (cb : CB) (now : Int), BreakerInv (handleFailure cb now))
    ∧ (∀ cb : CB, 0 ≤ cb.threshold → BreakerInv (resetFailureCount cb))
    ∧ (∀ (cb : CB) (now : Int) (health : Bool)
        (transport : TransportCall → TransportOutcome)
        (m p : String) (q : QueryParams) (b : Body) (hd : Headers),
        BreakerInv cb → 0 ≤ cb.threshold →
        BreakerInv (doRequest cb now health transport m p q b hd).cb) := by
  refine ⟨?_, ?_, ?_, ?_, ?_, ?_, ?_⟩
  · intro cb
    constructor
    · intro h hc
      by_contra hlt
      push_neg at hlt
      exact absurd (hc.symm.trans (h hlt)) (by simp)
    · intro h hgt
      cases hs : cb.state
      · exact absurd (h hs) (not_le.mpr hgt)
      · rfl
  · intro t iv ht h
    simp [NewCircuitBreaker] at h
    omega
  · intro cb now _
    rfl
  · intro cb ht
    exact resetCircuit_inv cb ht
  · intro cb now
    exact handleFailure_inv cb now
  · intro cb ht
    exact resetFailureCount_inv cb ht
  · intro cb now health transport m p q b hd hinv ht
    exact doRequest_inv cb now health transport m p q b hd hinv ht

/-- C2 witness: the invariant holds after a concrete threshold-crossing
dispatch from a concrete state satisfying it. -/
theorem breaker_invariant_preserved_witness :
    BreakerInv ((doRequest ⟨.Closed, 2, 2, 5, 0⟩ 3 false trFailW "GET" "/p" none none none).cb)
    ∧ BreakerInv (NewCircuitBreaker 2 5) :=
  ⟨breaker_invariant_preserved.2.2.2.2.2.2 ⟨.Closed, 2, 2, 5, 0⟩ 3 false trFailW
      "GET" "/p" none none none (by decide) (by decide),
    breaker_invariant_preserved.2.1 2 5 (by decide)⟩

/-- C3: a request through any verb method while the breaker is Open and the
elapsed time since lastChecked does not exceed the interval returns
ErrCircuitOpen, invokes the wrapped transport zero times, performs no health
probe, and leaves the breaker unchanged. -/
theorem open_within_cooldown_short_circuits (cb : CB) (now : Int) (health : Bool)
    (transport : TransportCall → TransportOutcome)
    (m p : String) (q : QueryParams) (b : Body) (hd : Headers)
    (hst : cb.state = .Open)
    (hel : now - cb.lastChecked ≤ cb.interval) :
    doRequest cb now health transport m p q b hd =
      { cb := cb, resp := none, err := some .circuitOpen, transportCalls := 0,
        probeCalls := 0, transportCall := none } := by
  have h := doRequest_stuck cb now health transport m p q b hd hst
    (fun hc => absurd hc.1 (not_lt.mpr hel))
  rw [h, if_neg (not_lt.mpr hel)]

/-- C3 witness: a concrete Open breaker inside the cool-down window. -/
theorem open_within_cooldown_short_circuits_witness :
    doRequest ⟨.Open, 3, 2, 5, 0⟩ 4 true trFailW "GET" "/p" none none none =
      { cb := ⟨.Open, 3, 2, 5, 0⟩, resp := none, err := some .circuitOpen,
        transportCalls := 0, probeCalls := 0, transportCall := none } :=
  open_within_cooldown_short_circuits ⟨.Open, 3, 2, 5, 0⟩ 4 true trFailW
    "GET" "/p" none none none (by decide) (by decide)

/-- C7: no call entering through any of the ten public verb methods ever
returns ErrUnexpectedCircuitBreakerResultType: the dispatch switch always
matches and the unwrap step's type assertion always succeeds. -/
theorem verb_methods_never_unexpected_result (cb : CB) (now : Int) (health : Bool)
    (transport : TransportCall → TransportOutcome)
    (path : String) (q : QueryParams) (b : Body) (hd : Headers) :
    (Get cb now health transport path q).err ≠ some .unexpectedResultType
    ∧ (GetWithHeaders cb now health transport path q hd).err ≠ some .unexpectedResultType
    ∧ (Post cb now health transport path q b).err ≠ some .unexpectedResultType
    ∧ (PostWithHeaders cb now health transport path q b hd).err ≠ some .unexpectedResultType
    ∧ (Patch cb now health transport path q b).err ≠ some .unexpectedResultType
    ∧ (PatchWithHeaders cb now health transport path q b hd).err ≠ some .unexpectedResultType
    ∧ (Put cb now health transport path q b).err ≠ some .unexpectedResultType
    ∧ (PutWithHeaders cb now health transport path q b hd).err ≠ some .unexpectedResultType
    ∧ (Delete cb now health transport path b).err ≠ some .unexpectedResultType
    ∧ (DeleteWithHeaders cb now health transport path b hd).err ≠ some .unexpectedResultType := by
  refine ⟨?_, ?_, ?_, ?_, ?_, ?_, ?_, ?_, ?_, ?_⟩ <;>
    exact doRequest_err_ne _ _ _ _ _ _ _ _ _ (by decide)

/-- C5 counterexample: with a negative threshold (threshold = -1, allowed by
the int-typed config), a request through a verb method on a Closed breaker
whose transport call succeeds does NOT keep the state Closed and does NOT
return the response: the reset count 0 still exceeds the threshold, so the
circuit opens and the caller gets ErrCircuitOpen. -/
theorem success_resets_counter_counterexample :
    (trOkW (.get "/p" none none)).err = none
    ∧ (doRequest ⟨.Closed, 0, -1, 5, 0⟩ 1 false trOkW "GET" "/p" none none none).err =
        some .circuitOpen
    ∧ (doRequest ⟨.Closed, 0, -1, 5, 0⟩ 1 false trOkW "GET" "/p" none none none).cb.state =
        .Open
    ∧ (doRequest ⟨.Closed, 0, -1, 5, 0⟩ 1 false trOkW "GET" "/p" none none none).resp =
        none := by
  decide

/-- C5 amended: for a breaker with non-negative threshold in the Closed
state, a request through any verb method whose transport call succeeds
resets failureCount to 0 regardless of its previous value, keeps the state
Closed (with threshold, interval and lastChecked untouched), and returns the
transport's response unchanged with a nil error. -/
theorem success_resets_counter (cb : CB) (now : Int) (health : Bool)
    (transport : TransportCall → TransportOutcome)
    (m p : String) (q : QueryParams) (b : Body) (hd : Headers)
    (hst : cb.state = .Closed) (hverb : isVerb m) (ht : 0 ≤ cb.threshold) :
    ∃ c, switchCall m p q b hd = some c ∧
      ((transport c).err = none →
        doRequest cb now health transport m p q b hd =
          ⟨⟨.Closed, 0, cb.threshold, cb.interval, cb.lastChecked⟩,
            (transport c).resp, none, 1, 0, some c⟩) := by
  rcases Option.isSome_iff_exists.mp (switchCall_isSome m p q b hd hverb) with ⟨c, hc⟩
  refine ⟨c, hc, fun hok => ?_⟩
  rw [doRequest_closed_eq cb now health transport m p q b hd hst,
    dispatch_closed_success cb 0 now health transport m p q b hd c hc hst hok ht]
  have hrf : resetFailureCount cb =
      ⟨.Closed, 0, cb.threshold, cb.interval, cb.lastChecked⟩ := by
    simp [resetFailureCount, ← hst]
  rw [hrf]

/-- C5 witness: concrete instance with a previous failure count of 2. -/
theorem success_resets_counter_witness :
    ∃ c, switchCall "GET" "/p" none none none = some c ∧
      ((trOkW c).err = none →
        doRequest ⟨.Closed, 2, 3, 5, 9⟩ 20 false trOkW "GET" "/p" none none none =
          ⟨⟨.Closed, 0, 3, 5, 9⟩, (trOkW c).resp, none, 1, 0, some c⟩) :=
  success_resets_counter ⟨.Closed, 2, 3, 5, 9⟩ 20 false trOkW "GET" "/p" none none none
    (by decide) (by decide) (by decide)

/-- C4 counterexample: breaker Open with threshold 0, cool-down elapsed,
probe up.  The original request IS re-issued (one transport call, which
fails with transport error 7), but the caller receives ErrCircuitOpen, not
that request's result. -/
theorem recovered_call_returns_result_counterexample :
    (doRequest ⟨.Open, 1, 0, 5, 0⟩ 10 true trFailW "GET" "/p" none none none).transportCalls = 1
    ∧ trFailW (.get "/p" none none) = ⟨none, some 7⟩
    ∧ (doRequest ⟨.Open, 1, 0, 5, 0⟩ 10 true trFailW "GET" "/p" none none none).err =
        some .circuitOpen
    ∧ (doRequest ⟨.Open, 1, 0, 5, 0⟩ 10 true trFailW "GET" "/p" none none none).err ≠
        some (.transport 7) := by
  decide

/-- C4 amended: while Open with the cool-down elapsed and the probe
reporting up, the breaker transitions to Closed with failureCount 0 and the
same invocation forwards the original request (same method, path, query
parameters, body, headers) to the wrapped transport; the transport's outcome
is then subject to the ordinary Closed-state accounting: a successful result
is returned unchanged when the threshold is non-negative, and a failing one
returns the transport error when the threshold is at least 1 but
ErrCircuitOpen (re-opening the circuit) when the threshold is at most 0. -/
theorem recovered_call_forwards_request (cb : CB) (now : Int)
    (transport : TransportCall → TransportOutcome)
    (m p : String) (q : QueryParams) (b : Body) (hd : Headers)
    (hst : cb.state = .Open) (hel : now - cb.lastChecked > cb.interval)
    (hverb : isVerb m) :
    ∃ c, switchCall m p q b hd = some c ∧
      (doRequest cb now true transport m p q b hd).transportCall = some c
      ∧ (doRequest cb now true transport m p q b hd).transportCalls = 1
      ∧ (doRequest cb now true transport m p q b hd).probeCalls = 1
      ∧ ((transport c).err = none → 0 ≤ cb.threshold →
          doRequest cb now true transport m p q b hd =
            ⟨⟨.Closed, 0, cb.threshold, cb.interval, cb.lastChecked⟩,
              (transport c).resp, none, 1, 1, some c⟩)
      ∧ (∀ e, (transport c).err = some e → 1 ≤ cb.threshold →
          doRequest cb now true transport m p q b hd =
            ⟨⟨.Closed, 1, cb.threshold, cb.interval, cb.lastChecked⟩,
              none, some (.transport e), 1, 1, some c⟩)
      ∧ (∀ e, (transport c).err = some e → cb.threshold ≤ 0 →
          doRequest cb now true transport m p q b hd =
            ⟨⟨.Open, 1, cb.threshold, cb.interval, now⟩,
              none, some .circuitOpen, 1, 1, some c⟩) := by
  rcases Option.isSome_iff_exists.mp (switchCall_isSome m p q b hd hverb) with ⟨c, hc⟩
  have hre := doRequest_open_recovered_eq cb now transport m p q b hd hst hel
  have hstc : (resetCircuit cb).state = .Closed := by simp [resetCircuit]
  have hfields := dispatch_fields (resetCircuit cb) 1 now true transport m p q b hd c hc hstc
  refine ⟨c, hc, ?_, ?_, ?_, ?_, ?_, ?_⟩
  · rw [hre]
    exact hfields.1
  · rw [hre]
    exact hfields.2.1
  · rw [hre]
    exact hfields.2.2
  · intro hok ht
    have hval := dispatch_closed_success (resetCircuit cb) 1 now true transport m p q b hd
      c hc hstc hok (by simpa [resetCircuit] using ht)
    rw [hre, hval, show resetFailureCount (resetCircuit cb) =
      ⟨.Closed, 0, cb.threshold, cb.interval, cb.lastChecked⟩ by
        simp [resetFailureCount, resetCircuit]]
  · intro e htre ht
    have hval := dispatch_closed_fail_low (resetCircuit cb) 1 now true transport m p q b hd
      c e hc hstc htre (by simp [resetCircuit]; omega)
    rw [hre, hval]
    simp [resetCircuit]
  · intro e htre ht
    have hval := dispatch_closed_fail_cross (resetCircuit cb) 1 now true transport m p q b hd
      c e hc hstc htre (by simp [resetCircuit]; omega)
    rw [hre, hval]
    simp [resetCircuit]

/-- C4 witness: a concrete Open breaker past its cool-down with a healthy
probe and a succeeding transport: the same call returns the transport's
response with the breaker Closed and reset. -/
theorem recovered_call_forwards_request_witness :
    doRequest ⟨.Open, 5, 2, 3, 0⟩ 10 true trOkW "GET" "/p" none none none =
      ⟨⟨.Closed, 0, 2, 3, 0⟩, some 42, none, 1, 1, some (.get "/p" none none)⟩ := by
  rcases recovered_call_forwards_request ⟨.Open, 5, 2, 3, 0⟩ 10 trOkW "GET" "/p"
    none none none (by decide) (by decide) (by decide)
    with ⟨c, hc, h1, h2, h3, hsucc, hflow, hfcross⟩
  have hc2 : c = .get "/p" none none := by
    have hx : (some (TransportCall.get "/p" none none) : Option TransportCall) = some c := by
      rw [← hc]
      rfl
    exact (Option.some_inj.mp hx).symm
  subst hc2
  exact hsucc rfl (by decide)

/-- executeWithCircuitBreaker either leaves lastChecked alone or sets it to
the current time while leaving the breaker Open. -/
lemma exec_lastChecked (cb : CB) (now : Int) (health : Bool) (tr : TransportOutcome) :
    (executeWithCircuitBreaker cb now health tr).cb.lastChecked = cb.lastChecked
    ∨ ((executeWithCircuitBreaker cb now health tr).cb.lastChecked = now
        ∧ (executeWithCircuitBreaker cb now health tr).cb.state = .Open) := by
  by_cases hst : cb.state = .Open
  · by_cases he : now - cb.lastChecked > cb.interval
    · cases health
      · left
        simp [executeWithCircuitBreaker, hst, he]
      · left
        simp [executeWithCircuitBreaker, hst, he, resetCircuit]
    · left
      simp [executeWithCircuitBreaker, hst, he]
  · rcases h : tr.err with _ | e
    · by_cases hcnt : (0 : Int) > cb.threshold
      · right
        simp [executeWithCircuitBreaker, hst, h, resetFailureCount, hcnt, openCircuit]
      · left
        simp [executeWithCircuitBreaker, hst, h, resetFailureCount, hcnt]
    · by_cases hcnt : cb.failureCount + 1 > cb.threshold
      · right
        simp [executeWithCircuitBreaker, hst, h, handleFailure, hcnt, openCircuit]
      · left
        simp [executeWithCircuitBreaker, hst, h, handleFailure, hcnt]

/-- dispatchAndUnwrap either leaves lastChecked alone or sets it to the
current time while leaving the breaker Open. -/
lemma dispatch_lastChecked (cb1 : CB) (probes1 : Nat) (now : Int) (health : Bool)
    (transport : TransportCall → TransportOutcome)
    (m p : String) (q : QueryParams) (b : Body) (hd : Headers) :
    (dispatchAndUnwrap cb1 probes1 now health transport m p q b hd).cb.lastChecked =
      cb1.lastChecked
    ∨ ((dispatchAndUnwrap cb1 probes1 now health transport m p q b hd).cb.lastChecked = now
        ∧ (dispatchAndUnwrap cb1 probes1 now health transport m p q b hd).cb.state = .Open) := by
  rcases h : switchCall m p q b hd with _ | c
  · left
    simp [dispatchAndUnwrap, h, handleCircuitBreakerResult]
  · have hx := exec_lastChecked cb1 now health (transport c)
    rcases he : (executeWithCircuitBreaker cb1 now health (transport c)).err with _ | e <;>
      simpa [dispatchAndUnwrap, h, handleCircuitBreakerResult, he] using hx

/-- doRequest either leaves lastChecked alone or sets it to the current time
while ending Open. -/
lemma doRequest_lastChecked (cb : CB) (now : Int) (health : Bool)
    (transport : TransportCall → TransportOutcome)
    (m p : String) (q : QueryParams) (b : Body) (hd : Headers) :
    (doRequest cb now health transport m p q b hd).cb.lastChecked = cb.lastChecked
    ∨ ((doRequest cb now health transport m p q b hd).cb.lastChecked = now
        ∧ (doRequest cb now health transport m p q b hd).cb.state = .Open) := by
  by_cases hst : cb.state = .Open
  · by_cases he : now - cb.lastChecked > cb.interval
    · cases health
      · left
        rw [doRequest_stuck cb now false transport m p q b hd hst (by simp)]
      · rw [doRequest_open_recovered_eq cb now transport m p q b hd hst he]
        rcases dispatch_lastChecked (resetCircuit cb) 1 now true transport m p q b hd
          with h1 | h2
        · left
          rw [h1]
          rfl
        · right
          exact h2
    · left
      rw [doRequest_stuck cb now health transport m p q b hd hst
        (fun hcc => absurd hcc.1 he)]
  · have hclosed : cb.state = .Closed := by
      cases hs : cb.state
      · rfl
      · exact absurd hs hst
    rw [doRequest_closed_eq cb now health transport m p q b hd hclosed]
    exact dispatch_lastChecked cb 0 now health transport m p q b hd

/-- C6 counterexample: breaker Open with lastChecked 0 and interval 5; a
request at time 10 performs a recovery probe (cool-down elapsed, probe
down), yet lastChecked is left at 0, not updated to the probe time 10. -/
theorem lastChecked_probe_counterexample :
    (doRequest ⟨.Open, 3, 2, 5, 0⟩ 10 false trFailW "GET" "/p" none none none).probeCalls = 1
    ∧ (doRequest ⟨.Open, 3, 2, 5, 0⟩ 10 false trFailW "GET" "/p" none none none).cb.lastChecked = 0
    ∧ (0 : Int) ≠ 10 := by
  decide

/-- C6 amended: lastChecked records only transitions into the Open state:
openCircuit sets it to the current time and makes the state Open; resetCircuit,
the background health-check tick and tryCircuitRecovery never touch it
(recovery probes do not update lastChecked); and a complete dispatch either
leaves lastChecked unchanged or ends Open with lastChecked equal to the time
of the call that opened the circuit. -/
theorem lastChecked_only_open_transitions :
    (∀ (cb : CB) (now : Int),
        (openCircuit cb now).lastChecked = now ∧ (openCircuit cb now).state = .Open)
    ∧ (∀ cb : CB, (resetCircuit cb).lastChecked = cb.lastChecked)
    ∧ (∀ (cb : CB) (health : Bool),
        (startHealthChecksTick cb health).lastChecked = cb.lastChecked)
    ∧ (∀ (cb : CB) (now : Int) (health : Bool),
        (tryCircuitRecovery cb now health).1.lastChecked = cb.lastChecked)
    ∧ (∀ (cb : CB) (now : Int) (health : Bool)
        (transport : TransportCall → TransportOutcome)
        (m p : String) (q : QueryParams) (b : Body) (hd : Headers),
        (doRequest cb now health transport m p q b hd).cb.lastChecked = cb.lastChecked
        ∨ ((doRequest cb now health transport m p q b hd).cb.lastChecked = now
            ∧ (doRequest cb now health transport m p q b hd).cb.state = .Open)) := by
  refine ⟨fun cb now => ⟨rfl, rfl⟩, fun cb => rfl, ?_, ?_, ?_⟩
  · intro cb health
    unfold startHealthChecksTick
    split
    · split <;> rfl
    · rfl
  · intro cb now health
    unfold tryCircuitRecovery
    split
    · split <;> rfl
    · rfl
  · exact doRequest_lastChecked

/-- One step from an Open breaker whose recovery condition fails: nothing
changes and ErrCircuitOpen is returned. -/
lemma stuck_step (cbO : CB) (i : CallIn) (hst : cbO.state = .Open)
    (hcond : ¬(i.now - cbO.lastChecked > cbO.interval ∧ i.health = true)) :
    (doRequestIn cbO i).cb = cbO ∧ (doRequestIn cbO i).err = some .circuitOpen := by
  unfold doRequestIn
  rw [doRequest_stuck cbO i.now i.health i.transport i.method i.path i.queryParams
    i.body i.headers hst hcond]
  exact ⟨rfl, rfl⟩

/-- After n ≤ threshold uniformly failing calls from a fresh breaker, the
state is Closed with failureCount n. -/
lemma runSeq_closed_fails (t : Nat) (iv : Int) (ins : Nat → CallIn) (E : Nat → Nat)
    (hverb : ∀ n, isVerb (ins n).method)
    (htr : ∀ n c, (ins n).transport c = ⟨none, some (E n)⟩) :
    ∀ n, n ≤ t → runSeq (NewCircuitBreaker t iv) ins n =
      ⟨.Closed, (n : Int), (t : Int), iv, 0⟩ := by
  intro n
  induction n with
  | zero =>
    intro _
    rfl
  | succ k ih =>
    intro hle
    have hk := ih (by omega)
    show (doRequestIn (runSeq (NewCircuitBreaker t iv) ins k) (ins k)).cb = _
    rw [hk]
    unfold doRequestIn
    rcases Option.isSome_iff_exists.mp
      (switchCall_isSome (ins k).method (ins k).path (ins k).queryParams
        (ins k).body (ins k).headers (hverb k)) with ⟨c, hc⟩
    rw [doRequest_closed_eq _ _ _ _ _ _ _ _ _ rfl,
      dispatch_closed_fail_low _ 0 _ _ _ _ _ _ _ _ c (E k) hc rfl
        (by rw [htr k c]) (by show (k : Int) + 1 ≤ (t : Int); exact_mod_cast hle)]
    show (⟨.Closed, (k : Int) + 1, (t : Int), iv, 0⟩ : CB) = _
    have hcast : ((k : Int) + 1) = ((k + 1 : Nat) : Int) := by push_cast; ring
    rw [hcast]

/-- C1: from a fresh breaker with threshold t ≥ 0, under consecutive
uniformly failing calls through verb methods: the first t calls return the
underlying transport error with the state still Closed and failureCount
going 1..t; call t+1 crosses the threshold, opens the circuit (recording the
call time) and returns ErrCircuitOpen instead of the transport error; and
every later call returns ErrCircuitOpen and changes nothing as long as the
cool-down has not elapsed or the probe stays down. -/
theorem consecutive_failures_trip_breaker (t : Nat) (iv : Int)
    (ins : Nat → CallIn) (E : Nat → Nat)
    (hverb : ∀ n, isVerb (ins n).method)
    (htr : ∀ n c, (ins n).transport c = ⟨none, some (E n)⟩) :
    (∀ n, n ≤ t → runSeq (NewCircuitBreaker t iv) ins n =
        ⟨.Closed, (n : Int), (t : Int), iv, 0⟩)
    ∧ (∀ n, n < t → (outAt (NewCircuitBreaker t iv) ins n).err = some (.transport (E n))
        ∧ (outAt (NewCircuitBreaker t iv) ins n).transportCalls = 1)
    ∧ ((outAt (NewCircuitBreaker t iv) ins t).err = some .circuitOpen
        ∧ runSeq (NewCircuitBreaker t iv) ins (t + 1) =
            ⟨.Open, (t : Int) + 1, (t : Int), iv, (ins t).now⟩)
    ∧ (∀ n, t < n →
        (∀ k, t < k → k ≤ n →
          ¬((ins k).now - (ins t).now > iv ∧ (ins k).health = true)) →
        (outAt (NewCircuitBreaker t iv) ins n).err = some .circuitOpen
        ∧ runSeq (NewCircuitBreaker t iv) ins (n + 1) =
            ⟨.Open, (t : Int) + 1, (t : Int), iv, (ins t).now⟩) := by
  have hmain := runSeq_closed_fails t iv ins E hverb htr
  have hcross : (outAt (NewCircuitBreaker t iv) ins t).err = some .circuitOpen
      ∧ runSeq (NewCircuitBreaker t iv) ins (t + 1) =
          ⟨.Open, (t : Int) + 1, (t : Int), iv, (ins t).now⟩ := by
    have hseq := hmain t (le_refl t)
    rcases Option.isSome_iff_exists.mp
      (switchCall_isSome (ins t).method (ins t).path (ins t).queryParams
        (ins t).body (ins t).headers (hverb t)) with ⟨c, hc⟩
    have hout : outAt (NewCircuitBreaker t iv) ins t =
        ⟨⟨.Open, (t : Int) + 1, (t : Int), iv, (ins t).now⟩, none,
          some .circuitOpen, 1, 0, some c⟩ := by
      unfold outAt doRequestIn
      rw [hseq, doRequest_closed_eq _ _ _ _ _ _ _ _ _ rfl,
        dispatch_closed_fail_cross _ 0 _ _ _ _ _ _ _ _ c (E t) hc rfl
          (by rw [htr t c]) (by show (t : Int) + 1 > (t : Int); omega)]
    refine ⟨by rw [hout], ?_⟩
    show (doRequestIn (runSeq (NewCircuitBreaker t iv) ins t) (ins t)).cb = _
    show (outAt (NewCircuitBreaker t iv) ins t).cb = _
    rw [hout]
  refine ⟨hmain, ?_, hcross, ?_⟩
  · intro n hn
    have hseq := hmain n (by omega)
    rcases Option.isSome_iff_exists.mp
      (switchCall_isSome (ins n).method (ins n).path (ins n).queryParams
        (ins n).body (ins n).headers (hverb n)) with ⟨c, hc⟩
    have hout : outAt (NewCircuitBreaker t iv) ins n =
        ⟨⟨.Closed, (n : Int) + 1, (t : Int), iv, 0⟩, none,
          some (.transport (E n)), 1, 0, some c⟩ := by
      unfold outAt doRequestIn
      rw [hseq, doRequest_closed_eq _ _ _ _ _ _ _ _ _ rfl,
        dispatch_closed_fail_low _ 0 _ _ _ _ _ _ _ _ c (E n) hc rfl
          (by rw [htr n c]) (by show (n : Int) + 1 ≤ (t : Int); omega)]
    exact ⟨by rw [hout], by rw [hout]⟩
  · intro n hn
    induction n, hn using Nat.le_induction with
    | base =>
      intro hconds
      have hopen := hcross.2
      have hstep := stuck_step (⟨.Open, (t : Int) + 1, (t : Int), iv, (ins t).now⟩ : CB)
        (ins (t + 1)) rfl (hconds (t + 1) (by omega) (le_refl _))
      constructor
      · show (doRequestIn (runSeq (NewCircuitBreaker t iv) ins (t + 1)) (ins (t + 1))).err = _
        rw [hopen]
        exact hstep.2
      · show (doRequestIn (runSeq (NewCircuitBreaker t iv) ins (t + 1)) (ins (t + 1))).cb = _
        rw [hopen]
        exact hstep.1
    | succ n hn1 ih =>
      intro hconds
      have hprev := ih (fun k hk1 hk2 => hconds k hk1 (by omega))
      have hstep := stuck_step (⟨.Open, (t : Int) + 1, (t : Int), iv, (ins t).now⟩ : CB)
        (ins (n + 1)) rfl (hconds (n + 1) (by omega) (le_refl _))
      constructor
      · show (doRequestIn (runSeq (NewCircuitBreaker t iv) ins (n + 1)) (ins (n + 1))).err = _
        rw [hprev.2]
        exact hstep.2
      · show (doRequestIn (runSeq (NewCircuitBreaker t iv) ins (n + 1)) (ins (n + 1))).cb = _
        rw [hprev.2]
        exact hstep.1

/-- Input sequence used by the C1 witness: every call is a GET at time n
through the always-failing transport, with a down probe. -/
def insW : Nat → CallIn := fun n =>
  ⟨(n : Int), false, trFailW, "GET", "/p", none, none, none⟩

/-- C1 witness: threshold 1, interval 1; call 1 returns the transport error,
call 2 opens the circuit and returns ErrCircuitOpen, call 3 still returns
ErrCircuitOpen and the state after call 2 is Open with failureCount 2. -/
theorem consecutive_failures_trip_breaker_witness :
    runSeq (NewCircuitBreaker 1 1) insW 2 = ⟨.Open, 2, 1, 1, 1⟩
    ∧ (outAt (NewCircuitBreaker 1 1) insW 0).err = some (.transport 7)
    ∧ (outAt (NewCircuitBreaker 1 1) insW 1).err = some .circuitOpen
    ∧ (outAt (NewCircuitBreaker 1 1) insW 2).err = some .circuitOpen := by
  have hGet : isVerb "GET" := by decide
  have h := consecutive_failures_trip_breaker 1 1 insW (fun _ => 7)
    (fun _ => hGet) (fun _ _ => rfl)
  refine ⟨?_, ?_, ?_, ?_⟩
  · simpa using h.2.2.1.2
  · simpa using (h.2.1 0 (by omega)).1
  · simpa using h.2.2.1.1
  · have h4 := h.2.2.2 2 (by omega) ?_
    · simpa using h4.1
    · intro k hk1 hk2 hcc
      simp [insW] at hcc

/-- C8: on every failing poll-loop tick (GET error, body-read error, JSON
parse error) or a tick whose parsed data array is empty, the stored current
level is unchanged, no transition log line is emitted, and the fetch result
carries the unchanged current level (with the error swallowed by the nil-err
guard; on empty data changeLevel is called with the unchanged level, which
is no transition). -/
theorem poll_failure_keeps_level :
    ∀ cur : Level,
      (∀ e, pollTick cur (.getErr e) = ⟨cur, false, none⟩
        ∧ fetchAndUpdateLogLevel (.getErr e) cur = (cur, some e))
      ∧ (∀ e, pollTick cur (.readErr e) = ⟨cur, false, none⟩
        ∧ fetchAndUpdateLogLevel (.readErr e) cur = (cur, some e))
      ∧ (∀ e, pollTick cur (.parseErr e) = ⟨cur, false, none⟩
        ∧ fetchAndUpdateLogLevel (.parseErr e) cur = (cur, some e))
      ∧ (pollTick cur (.parsed []) = ⟨cur, false, some cur⟩
        ∧ fetchAndUpdateLogLevel (.parsed []) cur = (cur, none)) := by
  intro cur
  refine ⟨fun e => ⟨?_, rfl⟩, fun e => ⟨?_, rfl⟩, fun e => ⟨?_, rfl⟩, ⟨?_, rfl⟩⟩ <;>
    simp [pollTick, fetchAndUpdateLogLevel]

/-- C9: if two consecutive ticks both fetch level L with a nil error and L
differs from the level stored before the first tick, then the first tick
emits the transition log line and stores L, and the second tick emits
nothing because the stored level already equals L. -/
theorem poll_same_level_logs_once (cur L : Level) (o1 o2 : FetchOutcome)
    (h1 : fetchAndUpdateLogLevel o1 cur = (L, none))
    (hne : L ≠ cur)
    (h2 : fetchAndUpdateLogLevel o2 (pollTick cur o1).currentLevel = (L, none)) :
    (pollTick cur o1).currentLevel = L
    ∧ (pollTick cur o1).logEmitted = true
    ∧ (pollTick (pollTick cur o1).currentLevel o2).currentLevel = L
    ∧ (pollTick (pollTick cur o1).currentLevel o2).logEmitted = false := by
  have ht1 : pollTick cur o1 = ⟨L, true, some L⟩ := by
    unfold pollTick
    rw [h1]
    dsimp only
    rw [if_pos (Ne.symm hne)]
  have hcur : (pollTick cur o1).currentLevel = L := by rw [ht1]
  rw [hcur] at h2
  have ht2 : pollTick L o2 = ⟨L, false, some L⟩ := by
    unfold pollTick
    rw [h2]
    dsimp only
    rw [if_neg (by simp)]
  refine ⟨hcur, by rw [ht1], ?_, ?_⟩
  · rw [hcur, ht2]
  · rw [hcur, ht2]

/-- C9 witness: a remote response reporting DEBUG applied twice starting
from INFO logs the transition exactly once. -/
theorem poll_same_level_logs_once_witness :
    (pollTick .INFO (.parsed [("svc", [("LOG_LEVEL", "DEBUG")])])).currentLevel = Level.DEBUG
    ∧ (pollTick .INFO (.parsed [("svc", [("LOG_LEVEL", "DEBUG")])])).logEmitted = true
    ∧ (pollTick (pollTick .INFO (.parsed [("svc", [("LOG_LEVEL", "DEBUG")])])).currentLevel
        (.parsed [("svc", [("LOG_LEVEL", "DEBUG")])])).currentLevel = Level.DEBUG
    ∧ (pollTick (pollTick .INFO (.parsed [("svc", [("LOG_LEVEL", "DEBUG")])])).currentLevel
        (.parsed [("svc", [("LOG_LEVEL", "DEBUG")])])).logEmitted = false :=
  poll_same_level_logs_once .INFO .DEBUG
    (.parsed [("svc", [("LOG_LEVEL", "DEBUG")])])
    (.parsed [("svc", [("LOG_LEVEL", "DEBUG")])])
    (by decide) (by decide) (by decide)

/-- C10: the fetch-interval string "0" parses as the integer 0, so the
configured poll interval is 0 seconds, which is not positive (the claim's
positivity guarantee fails; a zero interval makes the poll loop's ticker
construction panic in Go).  The parse-failure default of 15 and the parse
of a positive value behave as claimed. -/
theorem interval_parse_not_always_positive :
    (NewRemoteLogger .INFO "http://configs" "0").levelFetchInterval = 0
    ∧ ¬(0 < (NewRemoteLogger .INFO "http://configs" "0").levelFetchInterval)
    ∧ (NewRemoteLogger .INFO "http://configs" "abc").levelFetchInterval = 15
    ∧ (NewRemoteLogger .INFO "http://configs" "").levelFetchInterval = 15
    ∧ (NewRemoteLogger .INFO "http://configs" "30").levelFetchInterval = 30 := by
  decide

end Gofr
